import Mathlib

/-!
Verification of the MultiGenQA backend (src/backend/app.py, src/backend/models.py).

The development shallowly embeds the data model (models.py), the JWT
token functions on `User`, the `AIService` provider-dispatch methods and
the `/api/chat`, `/api/conversations` route handlers (app.py).  The
database session is modelled as explicit state (`DB`): each table is the
list of its rows in insertion order, and every committed write appends
or updates rows of that state.  Wall-clock readings (`datetime.utcnow`,
`time.time`) are explicit `Nat` parameters, and the opaque outbound SDK
call of each provider binding is an explicit outcome parameter
(`ProviderCall`), since the vendor SDKs are external collaborators.
-/

set_option maxRecDepth 8192

namespace MultiGenQA

/-! ## Data model (src/backend/models.py) -/

/-- Row of the `users` table (models.py `class User`), restricted to the
fields the verified flows read or write. -/
structure User where
  id : String
  email : String
  is_active : Bool
  password_reset_token : Option String := none
  password_reset_expires : Option Nat := none
  deriving Repr, DecidableEq

/-- Row of the `conversations` table (models.py `class Conversation`). -/
structure Conversation where
  id : String
  user_id : String
  title : Option String
  created_at : Nat
  updated_at : Nat
  is_active : Bool
  deriving Repr, DecidableEq

/-- Row of the `messages` table (models.py `class Message`). -/
structure Message where
  id : String
  conversation_id : String
  role : String
  content : String
  model_used : Option String
  timestamp : Nat
  token_count : Option Nat
  response_time : Option Nat
  deriving Repr, DecidableEq

/-- Row of the `api_usage` table (models.py `class APIUsage`). -/
structure APIUsage where
  id : String
  user_id : String
  model_name : String
  endpoint : String
  tokens_used : Option Nat
  cost_estimate : Option Nat
  response_time : Nat
  status_code : Nat
  timestamp : Nat
  deriving Repr, DecidableEq

/-- The database state: each table as its list of rows in insertion
order. -/
structure DB where
  users : List User
  conversations : List Conversation
  messages : List Message
  api_usage : List APIUsage
  deriving Repr, DecidableEq

/-! ## JWT model (PyJWT, HS256)

`jwt.encode` produces a token signed with a key; `jwt.decode` checks the
signature and the `exp` claim.  A token value is either a well-formed
signed payload or an undecodable string. -/

/-- The payload dict built by `User.generate_auth_token` (models.py:94).
`user_id` is `Option` because `payload.get` on a foreign token may find
no such claim. -/
structure JwtPayload where
  user_id : Option String
  email : String
  exp : Nat
  iat : Nat
  deriving Repr, DecidableEq

/-- A JWT string: either a payload signed under some key, or a string
that does not decode at all. -/
inductive JwtToken where
  | signed (payload : JwtPayload) (key : String)
  | garbage (s : String)
  deriving Repr, DecidableEq

/-- The PyJWT exceptions caught in `verify_auth_token`
(models.py:131-134). -/
inductive JwtError where
  | expiredSignature
  | invalidToken
  deriving Repr, DecidableEq

/-- `jwt.decode(token, key, algorithms=[HS256], leeway)` at clock `now`:
signature mismatch or garbage raises `InvalidTokenError`; an `exp` claim
with `exp < now - leeway` raises `ExpiredSignatureError`. -/
def jwtDecode (tok : JwtToken) (key : String) (leeway : Nat) (now : Nat) :
    Except JwtError JwtPayload :=
  match tok with
  | .garbage _ => .error .invalidToken
  | .signed p k =>
    if k ≠ key then .error .invalidToken
    else if p.exp + leeway < now then .error .expiredSignature
    else .ok p

/-- `User.generate_auth_token` (models.py:81-100): encodes
`{user_id, email, exp := now + expires_in, iat := now}` under the
application secret key. -/
def generate_auth_token (u : User) (now : Nat) (secret_key : String)
    (expires_in : Nat := 86400) : JwtToken :=
  .signed { user_id := some u.id, email := u.email,
            exp := now + expires_in, iat := now } secret_key

/-- `User.verify_auth_token` (models.py:102-137): decodes with
`leeway=10`; on any decode/signature/expiry error returns `None`
(every exception is caught); otherwise reads `user_id` from the
payload (a falsy value, absent or empty, yields `None`), loads the
user by primary key, and returns it only when it exists and is
active. -/
def verify_auth_token (users : List User) (secret_key : String) (now : Nat)
    (token : JwtToken) : Option User :=
  match jwtDecode token secret_key 10 now with
  | .error _ => none
  | .ok payload =>
    match payload.user_id with
    | none => none
    | some uid =>
      if uid = "" then none
      else
        match users.find? (fun x => x.id = uid) with
        | none => none
        | some user => if user.is_active then some user else none

/-- The Python `AttributeError` raised when an attribute lookup fails. -/
inductive PyError where
  | attributeError (msg : String)
  deriving Repr, DecidableEq

/-- `User.generate_password_reset_token` (models.py:150-163).  The file
imports only the class (`from datetime import datetime`), so the
expression `datetime.timedelta(seconds=expires_in)` on line 162 raises
`AttributeError` deterministically.  Lines 160-161 run first and assign
`self.password_reset_token`; the assignment to
`self.password_reset_expires` on line 162 is never reached.  The result
is the raised error (never a returned token) together with the mutated
user object. -/
def generate_password_reset_token (u : User) (fresh_token : String)
    (_now : Nat) (_expires_in : Nat := 3600) : Except PyError String × User :=
  let token := fresh_token
  let u1 := { u with password_reset_token := some token }
  (.error (.attributeError
      "type object datetime.datetime has no attribute timedelta"), u1)

/-! ## Provider dispatch (src/backend/app.py `class AIService`)

Each `call_*` method wraps exactly one opaque outbound SDK call in a
`try` block.  The call either yields response text (plus reported token
usage, where the SDK exposes it) or raises; `ProviderCall` carries that
outcome together with the measured wall-clock latency of the attempt. -/

/-- One message of the request body, `{role, content}`. -/
structure ChatMsg where
  role : String
  content : String
  deriving Repr, DecidableEq

instance {ε α : Type} [DecidableEq ε] [DecidableEq α] :
    DecidableEq (Except ε α) := fun x y =>
  match x, y with
  | .error a, .error b =>
    if h : a = b then .isTrue (by rw [h])
    else .isFalse (by intro hc; cases hc; exact h rfl)
  | .error _, .ok _ => .isFalse (by intro hc; cases hc)
  | .ok _, .error _ => .isFalse (by intro hc; cases hc)
  | .ok a, .ok b =>
    if h : a = b then .isTrue (by rw [h])
    else .isFalse (by intro hc; cases hc; exact h rfl)

/-- Outcome of the single opaque outbound SDK call of a provider
binding: response text and reported total tokens on success, or the
raised error message. -/
structure ProviderCall where
  outcome : Except String (String × Option Nat)
  elapsed : Nat
  deriving Repr, DecidableEq

/-- The dict returned by each `AIService.call_*`: the success shape
`{response, model, tokens_used?, response_time}` or the error shape
`{error}` (tested by the caller as `if error in ai_response`). -/
inductive AiResponse where
  | ok (response : String) (model : String) (tokens_used : Option Nat)
      (response_time : Nat)
  | err (error : String)
  deriving Repr, DecidableEq

namespace AIService

/-- `AIService._record_usage` (app.py:952-971): appends one `APIUsage`
row and commits.  `cost_estimate` defaults to `None` and no call site
passes it. -/
def record_usage (user_id model_name endpoint : String)
    (response_time status_code : Nat) (tokens_used : Option Nat)
    (cost_estimate : Option Nat) (usage_id : String) (now : Nat)
    (db : DB) : DB :=
  { db with api_usage := db.api_usage ++
      [{ id := usage_id, user_id := user_id, model_name := model_name,
         endpoint := endpoint, tokens_used := tokens_used,
         cost_estimate := cost_estimate, response_time := response_time,
         status_code := status_code, timestamp := now }] }

/-- `AIService.call_openai` (app.py:766-828): sends the full role-tagged
history to the SDK; on success records a status-200 usage row with the
reported tokens and returns the success dict; on any exception records
a status-500 usage row (no tokens) and returns the error dict. -/
def call_openai (_messages : List ChatMsg) (call : ProviderCall)
    (user_id : String) (db : DB) (usage_id : String) (now : Nat) :
    AiResponse × DB :=
  match call.outcome with
  | .ok (result, tokens) =>
    (.ok result "openai-gpt-4o" tokens call.elapsed,
     record_usage user_id "openai-gpt-4o" "/chat/completions"
       call.elapsed 200 tokens none usage_id now db)
  | .error e =>
    (.err ("Error calling OpenAI: " ++ e),
     record_usage user_id "openai-gpt-4o" "/chat/completions"
       call.elapsed 500 none none usage_id now db)

/-- `AIService.call_gemini` (app.py:830-887): concatenates the `user`
turns into a single prompt for the SDK; the success usage row and the
success dict never carry tokens. -/
def call_gemini (messages : List ChatMsg) (call : ProviderCall)
    (user_id : String) (db : DB) (usage_id : String) (now : Nat) :
    AiResponse × DB :=
  let user_messages := (messages.filter (fun m => m.role = "user")).map
    (fun m => m.content)
  let _prompt := String.intercalate "\n" user_messages
  match call.outcome with
  | .ok (result, _) =>
    (.ok result "gemini-2.5-flash" none call.elapsed,
     record_usage user_id "gemini-2.5-flash" "/generate"
       call.elapsed 200 none none usage_id now db)
  | .error e =>
    (.err ("Error calling Gemini: " ++ e),
     record_usage user_id "gemini-2.5-flash" "/generate"
       call.elapsed 500 none none usage_id now db)

/-- `AIService.call_claude` (app.py:889-950): filters the history to
`user`/`assistant` turns for the SDK; on success records the reported
tokens. -/
def call_claude (messages : List ChatMsg) (call : ProviderCall)
    (user_id : String) (db : DB) (usage_id : String) (now : Nat) :
    AiResponse × DB :=
  let _filtered_messages := messages.filter
    (fun m => m.role = "user" ∨ m.role = "assistant")
  match call.outcome with
  | .ok (result, tokens) =>
    (.ok result "claude-3-5-sonnet" tokens call.elapsed,
     record_usage user_id "claude-3-5-sonnet" "/messages"
       call.elapsed 200 tokens none usage_id now db)
  | .error e =>
    (.err ("Error calling Claude: " ++ e),
     record_usage user_id "claude-3-5-sonnet" "/messages"
       call.elapsed 500 none none usage_id now db)

end AIService

/-- The fixed per-provider model label recorded on success and failure
(the literals of app.py:790, 852, 913). -/
def provider_label (model : String) : String :=
  if model = "openai" then "openai-gpt-4o"
  else if model = "gemini" then "gemini-2.5-flash"
  else if model = "claude" then "claude-3-5-sonnet"
  else ""

/-- The per-provider endpoint label of the usage rows (app.py:791, 853,
914). -/
def provider_endpoint (model : String) : String :=
  if model = "openai" then "/chat/completions"
  else if model = "gemini" then "/generate"
  else if model = "claude" then "/messages"
  else ""

/-- The token count the success dict carries: the SDK-reported count
for openai/claude, never reported for gemini. -/
def provider_tokens (model : String) (tokens : Option Nat) : Option Nat :=
  if model = "gemini" then none else tokens

/-! ## The chat route handler (src/backend/app.py `chat`, lines 976-1077) -/

/-- The parsed request body: `data.get(model)`, `data.get(messages, [])`,
`data.get(conversation_id)`. -/
structure ChatRequest where
  model : Option String
  messages : List ChatMsg
  conversation_id : Option String
  deriving Repr, DecidableEq

/-- The `uuid4` primary keys drawn for rows the request may insert. -/
structure Fresh where
  convId : String
  userMsgId : String
  usageId : String
  aiMsgId : String
  deriving Repr, DecidableEq

/-- An HTTP response: status code, the `error` field of the JSON body
when the response is an error envelope, and the database state after
the request. -/
structure HttpResult where
  status : Nat
  error : Option String
  db : DB
  deriving Repr, DecidableEq

/-- app.py:1015-1025: if the most recent supplied message has role
`user`, insert it as a `Message` row and commit (an empty history
inserts nothing). -/
def save_user_message (req : ChatRequest) (conv_id msg_id : String)
    (t0 : Nat) (db : DB) : DB :=
  match req.messages.getLast? with
  | none => db
  | some last =>
    if last.role = "user" then
      { db with messages := db.messages ++
          [{ id := msg_id, conversation_id := conv_id, role := "user",
             content := last.content, model_used := none, timestamp := t0,
             token_count := none, response_time := none }] }
    else db

/-- The `Conversation.query.filter_by(id=..., user_id=...)` lookup
predicate of app.py:1000-1003 and 1108-1111. -/
def conv_match (cid uid : String) (c : Conversation) : Bool :=
  c.id == cid && c.user_id == uid

/-- app.py:1027-1037: the three-way dispatch on the literal model
identifiers; any other value reaches no provider. -/
def dispatch_model (model : String) (messages : List ChatMsg)
    (call : ProviderCall) (user_id : String) (db : DB) (usage_id : String)
    (t1 : Nat) : Option (AiResponse × DB) :=
  if model = "openai" then
    some (AIService.call_openai messages call user_id db usage_id t1)
  else if model = "gemini" then
    some (AIService.call_gemini messages call user_id db usage_id t1)
  else if model = "claude" then
    some (AIService.call_claude messages call user_id db usage_id t1)
  else none

/-- The tail of the `chat` handler after conversation resolution
(app.py:1015-1077): persist the inbound `user` turn, dispatch on the
model, and on success persist the assistant reply and advance the
`updated_at` of the conversation. -/
def chat_with_conversation (u : User) (req : ChatRequest)
    (call : ProviderCall) (fr : Fresh) (t0 t1 : Nat)
    (conversation : Conversation) (db1 : DB) : HttpResult :=
  let db2 := save_user_message req conversation.id fr.userMsgId t0 db1
  match dispatch_model (req.model.getD "") req.messages call u.id db2
      fr.usageId t1 with
  | none =>
    { status := 400,
      error := some ("Invalid model selected: " ++ req.model.getD ""),
      db := db2 }
  | some (ai_response, db3) =>
    match ai_response with
    | .err e => { status := 500, error := some e, db := db3 }
    | .ok text label tokens rtime =>
      let ai_msg : Message :=
        { id := fr.aiMsgId, conversation_id := conversation.id,
          role := "assistant", content := text,
          model_used := some label, timestamp := t1,
          token_count := tokens, response_time := some rtime }
      { status := 200, error := none,
        db := { db3 with
          messages := db3.messages ++ [ai_msg],
          conversations := db3.conversations.map (fun c =>
            if c.id = conversation.id then { c with updated_at := t1 }
            else c) } }

/-- The `chat` handler body (app.py:976-1077), given the authenticated
user.  `t0` is the clock at the start of the request (conversation
creation and user-message timestamps), `t1` the clock after the
provider call returns (usage row, assistant-message timestamp and the
`updated_at` assignment of app.py:1055). -/
def chat (u : User) (req : ChatRequest) (call : ProviderCall) (fr : Fresh)
    (t0 t1 : Nat) (db : DB) : HttpResult :=
  -- app.py:990: `if not model or not messages`
  if req.model.getD "" = "" ∨ req.messages = [] then
    { status := 400, error := some "Model and messages are required", db := db }
  else
    -- app.py:998-1013: get or create the conversation
    let cid := req.conversation_id.getD ""
    let found : Option (Conversation × DB) :=
      if cid ≠ "" then
        match db.conversations.find? (conv_match cid u.id) with
        | none => none
        | some c => some (c, db)
      else
        let conversation : Conversation :=
          { id := fr.convId, user_id := u.id,
            title := some (match req.messages with
              | [] => "New Conversation"
              | m :: _ => m.content.take 50 ++ "..."),
            created_at := t0, updated_at := t0, is_active := true }
        some (conversation,
          { db with conversations := db.conversations ++ [conversation] })
    match found with
    | none => { status := 404, error := some "Conversation not found", db := db }
    | some (conversation, db1) =>
      chat_with_conversation u req call fr t0 t1 conversation db1

/-! ## Request authentication middleware -/

/-- The shape of the inbound `Authorization` header: absent, present but
not of the `Bearer <token>` form, or a bearer token. -/
inductive AuthHeader where
  | missing
  | malformed (raw : String)
  | bearer (tok : JwtToken)
  deriving Repr, DecidableEq

/-- The two 401 error kinds of the middleware. -/
inductive AuthFailure where
  | authenticationRequired
  | invalidToken
  deriving Repr, DecidableEq

/-- Modelled from the spec: the body of the `auth_required` decorator
(app.py:463-485) is absent from the source file, which retains only its
docstring; its behavior is taken from spec §4.2 and that docstring.
A missing header or one not in `Bearer <token>` form is rejected as
authentication-required; a present token is resolved through
`User.verify_auth_token`, and a failed resolution (undecodable,
expired, signature-mismatched, unknown or inactive user) is rejected
as invalid-token; otherwise the resolved user is attached to the
request context. -/
def auth_required (users : List User) (secret_key : String) (now : Nat)
    (hdr : AuthHeader) : Except AuthFailure User :=
  match hdr with
  | .missing => .error .authenticationRequired
  | .malformed _ => .error .authenticationRequired
  | .bearer tok =>
    match verify_auth_token users secret_key now tok with
    | none => .error .invalidToken
    | some u => .ok u

/-- Modelled from the spec: a route marked `@auth_required` runs its
handler body only when the middleware resolves a user; otherwise it
responds 401 with the middleware error and leaves the database
untouched. -/
def with_auth (secret_key : String) (now : Nat) (hdr : AuthHeader)
    (db : DB) (handler : User → DB → HttpResult) : HttpResult :=
  match auth_required db.users secret_key now hdr with
  | .error .authenticationRequired =>
    { status := 401, error := some "Authentication required", db := db }
  | .error .invalidToken =>
    { status := 401, error := some "Invalid token", db := db }
  | .ok u => handler u db

/-- `POST /api/chat` as routed: the spec-modelled middleware in front of
the `chat` handler body.  `now` is the request-arrival clock `t0`. -/
def chatRoute (secret_key : String) (now : Nat) (hdr : AuthHeader)
    (req : ChatRequest) (call : ProviderCall) (fr : Fresh) (t1 : Nat)
    (db : DB) : HttpResult :=
  with_auth secret_key now hdr db (fun u db0 => chat u req call fr now t1 db0)

/-! ## Conversation read endpoints (src/backend/app.py) -/

/-- The query of `get_conversations` (app.py:1087-1090): rows of the
authenticated user with `is_active=True`, ordered by `updated_at`
descending, limited to 50. -/
def get_conversations (u : User) (db : DB) : List Conversation :=
  (((db.conversations.filter
      (fun c => c.user_id = u.id ∧ c.is_active)).mergeSort
      (fun a b => decide (b.updated_at ≤ a.updated_at))).take 50)

/-- `get_conversation` (app.py:1103-1118): resolves the conversation by
id and owner, 404 when absent, else returns it with its nested
messages.  The `Conversation.messages` relationship (models.py:232)
declares no ordering clause; it is modelled as the rows of the
`messages` table belonging to the conversation, in table order. -/
def get_conversation (u : User) (conversation_id : String) (db : DB) :
    Option (Conversation × List Message) :=
  match db.conversations.find? (conv_match conversation_id u.id) with
  | none => none
  | some conversation =>
    some (conversation,
      db.messages.filter (fun m => m.conversation_id = conversation.id))

/-! ## Reachable database states

The only writers of `Message` rows among the verified routes are the
two inserts of the `chat` handler; states are those produced by a sequence
of sequential chat requests against a wall clock that does not run
backwards (spec §5: one request at a time, no intra-request
parallelism). -/

inductive Reachable : DB → Prop where
  | init (users : List User) :
      Reachable { users := users, conversations := [], messages := [],
                  api_usage := [] }
  | chatStep (u : User) (req : ChatRequest) (call : ProviderCall)
      (fr : Fresh) (t0 t1 : Nat) (db : DB) :
      Reachable db →
      (∀ m ∈ db.messages, m.timestamp ≤ t0) →
      t0 ≤ t1 →
      Reachable (chat u req call fr t0 t1 db).db

/-- Role/provenance discipline of a `Message` row as the `chat` handler
writes them: a `user` turn carries no model, an `assistant` turn
carries the fixed label of the provider that answered. -/
def MessageWF (m : Message) : Prop :=
  (m.role = "user" ∧ m.model_used = none) ∨
  (m.role = "assistant" ∧ ∃ l, m.model_used = some l ∧
    (l = "openai-gpt-4o" ∨ l = "gemini-2.5-flash" ∨ l = "claude-3-5-sonnet"))

/-- Invariant of the `messages` table: every row is well formed and the
table is in nondecreasing timestamp order. -/
def MessagesInv (db : DB) : Prop :=
  (∀ m ∈ db.messages, MessageWF m) ∧
  List.Pairwise (fun a b => a.timestamp ≤ b.timestamp) db.messages

/-! ## Concrete sample data for witnesses -/

/-- A concrete active user. -/
def sampleUser : User := { id := "u1", email := "a@b.com", is_active := true }

/-- A concrete active conversation owned by `sampleUser`. -/
def sampleConv : Conversation :=
  { id := "c1", user_id := "u1", title := none, created_at := 0,
    updated_at := 5, is_active := true }

/-- A concrete store holding `sampleUser` and `sampleConv`. -/
def sampleDB : DB :=
  { users := [sampleUser], conversations := [sampleConv], messages := [],
    api_usage := [] }

/-- A concrete empty store holding only `sampleUser`. -/
def emptyDB : DB :=
  { users := [sampleUser], conversations := [], messages := [],
    api_usage := [] }

/-- A concrete one-turn request body targeting the openai provider. -/
def sampleReq : ChatRequest :=
  { model := some "openai", messages := [{ role := "user", content := "hi" }],
    conversation_id := none }

/-- A concrete set of fresh row identifiers. -/
def sampleFresh : Fresh :=
  { convId := "c-new", userMsgId := "m-user", usageId := "usage-1",
    aiMsgId := "m-ai" }

/-- A concrete successful provider call. -/
def sampleCallOk : ProviderCall :=
  { outcome := .ok ("hello", some 15), elapsed := 2 }

/-- A concrete failed provider call. -/
def sampleCallErr : ProviderCall :=
  { outcome := .error "boom", elapsed := 2 }

/-- The user message row the sample chat turn inserts. -/
def sampleUserMsg : Message :=
  { id := "m-user", conversation_id := "c-new", role := "user",
    content := "hi", model_used := none, timestamp := 1,
    token_count := none, response_time := none }

/-- The assistant message row the sample chat turn inserts. -/
def sampleAiMsg : Message :=
  { id := "m-ai", conversation_id := "c-new", role := "assistant",
    content := "hello", model_used := some "openai-gpt-4o", timestamp := 2,
    token_count := some 15, response_time := some 2 }

/-- The conversation row the sample chat turn creates. -/
def sampleConvNew : Conversation :=
  { id := "c-new", user_id := "u1", title := some "hi...",
    created_at := 1, updated_at := 2, is_active := true }

/-! ## Theorems -/

/-- C2: a token produced by `generate_auth_token` for an active user,
passed immediately (same clock, same signing secret) to
`verify_auth_token`, resolves to that same user. -/
theorem generate_verify_roundtrip (u : User) (users : List User)
    (secret_key : String) (now expires_in : Nat)
    (hfind : users.find? (fun x => x.id = u.id) = some u)
    (hactive : u.is_active = true)
    (hid : u.id ≠ "") :
    verify_auth_token users secret_key now
      (generate_auth_token u now secret_key expires_in) = some u := by
  have hexp : ¬ (now + expires_in + 10 < now) := by omega
  unfold verify_auth_token generate_auth_token jwtDecode
  simp [hexp, hid, hfind, hactive]

/-- Witness: the round trip on a concrete active user. -/
theorem generate_verify_roundtrip_witness :
    verify_auth_token [{ id := "u1", email := "a@b.com", is_active := true }]
      "k" 1000
      (generate_auth_token
        { id := "u1", email := "a@b.com", is_active := true } 1000 "k" 86400)
      = some { id := "u1", email := "a@b.com", is_active := true } :=
  generate_verify_roundtrip _ _ _ _ _ (by decide) (by decide) (by decide)

/-- C3: `verify_auth_token` is a total function into `Option`: a
returned user is a stored, active user; any decode, signature or
expiry error yields `none`; and a token resolving to a deactivated
user yields `none` even when the token is unexpired. -/
theorem verify_auth_token_spec (users : List User) (secret_key : String)
    (now : Nat) (tok : JwtToken) :
    (∀ u, verify_auth_token users secret_key now tok = some u →
        u ∈ users ∧ u.is_active = true) ∧
    (∀ e, jwtDecode tok secret_key 10 now = .error e →
        verify_auth_token users secret_key now tok = none) ∧
    (∀ p uid u0, jwtDecode tok secret_key 10 now = .ok p →
        p.user_id = some uid →
        users.find? (fun x => x.id = uid) = some u0 →
        u0.is_active = false →
        verify_auth_token users secret_key now tok = none) := by
  refine ⟨?_, ?_, ?_⟩
  · intro u hu
    unfold verify_auth_token at hu
    cases hdec : jwtDecode tok secret_key 10 now with
    | error e => rw [hdec] at hu; cases hu
    | ok p =>
      rw [hdec] at hu
      dsimp only at hu
      cases hp : p.user_id with
      | none => rw [hp] at hu; cases hu
      | some uid =>
        rw [hp] at hu
        dsimp only at hu
        by_cases he : uid = ""
        · rw [if_pos he] at hu; cases hu
        · rw [if_neg he] at hu
          cases hf : users.find? (fun x => x.id = uid) with
          | none => rw [hf] at hu; cases hu
          | some user =>
            rw [hf] at hu
            dsimp only at hu
            by_cases ha : user.is_active
            · rw [if_pos ha] at hu
              injection hu with hu
              subst hu
              exact ⟨List.mem_of_find?_eq_some hf, ha⟩
            · rw [if_neg ha] at hu; cases hu
  · intro e hdec
    unfold verify_auth_token
    rw [hdec]
  · intro p uid u0 hdec hp hf ha
    unfold verify_auth_token
    rw [hdec]
    dsimp only
    rw [hp]
    dsimp only
    by_cases he : uid = ""
    · rw [if_pos he]
    · rw [if_neg he, hf]
      dsimp only
      rw [if_neg (by simp [ha])]

/-- Witness: an undecodable token yields `none`. -/
theorem verify_auth_token_spec_witness :
    verify_auth_token [{ id := "u1", email := "a@b.com", is_active := true }]
      "k" 0 (JwtToken.garbage "not-a-jwt") = none :=
  (verify_auth_token_spec _ _ _ _).2.1 JwtError.invalidToken rfl

/-- C10 (counterexample): `generate_password_reset_token` assigns the
generated token to `password_reset_token` on line 161 before line 162
raises, so the claim that no password-reset token is ever stored on
the user record by this method is false. -/
theorem password_reset_token_assigned_before_raise :
    (generate_password_reset_token
      { id := "u1", email := "a@b.com", is_active := true } "tok-1" 0
      3600).2.password_reset_token = some "tok-1" ∧
    (generate_password_reset_token
      { id := "u1", email := "a@b.com", is_active := true } "tok-1" 0
      3600).2.password_reset_token ≠ none := by
  exact ⟨rfl, by simp [generate_password_reset_token]⟩

/-- C10 (amended): the method always raises `AttributeError` from the
`datetime.timedelta` lookup and never returns a token, and the expiry
is never stored; the `password_reset_token` attribute, however, is
assigned before the exception is raised. -/
theorem generate_password_reset_token_raises (u : User)
    (fresh_token : String) (now expires_in : Nat) :
    (generate_password_reset_token u fresh_token now expires_in).1 =
      .error (.attributeError
        "type object datetime.datetime has no attribute timedelta") ∧
    (generate_password_reset_token u fresh_token now
      expires_in).2.password_reset_expires = u.password_reset_expires ∧
    (generate_password_reset_token u fresh_token now
      expires_in).2.password_reset_token = some fresh_token :=
  ⟨rfl, rfl, rfl⟩

/-- C1: on any route behind `auth_required`, a missing or non-Bearer
`Authorization` header is rejected 401 with the authentication-required
error, and a bearer token that fails to decode (undecodable, expired or
signature-mismatched) is rejected 401 with the invalid-token error; in
both cases the handler body never runs and the database is unchanged,
for every handler. -/
theorem auth_required_rejects (secret_key : String) (now : Nat)
    (hdr : AuthHeader) (db : DB) (handler : User → DB → HttpResult) :
    ((hdr = AuthHeader.missing ∨ ∃ raw, hdr = AuthHeader.malformed raw) →
      auth_required db.users secret_key now hdr =
        .error .authenticationRequired ∧
      with_auth secret_key now hdr db handler =
        { status := 401, error := some "Authentication required",
          db := db }) ∧
    (∀ tok e, hdr = AuthHeader.bearer tok →
      jwtDecode tok secret_key 10 now = .error e →
      auth_required db.users secret_key now hdr = .error .invalidToken ∧
      with_auth secret_key now hdr db handler =
        { status := 401, error := some "Invalid token", db := db }) := by
  constructor
  · rintro (rfl | ⟨raw, rfl⟩) <;> exact ⟨rfl, rfl⟩
  · rintro tok e rfl hdec
    have hv : verify_auth_token db.users secret_key now tok = none := by
      unfold verify_auth_token
      rw [hdec]
    refine ⟨?_, ?_⟩
    · simp [auth_required, hv]
    · simp [with_auth, auth_required, hv]

/-- Witness: a request with no `Authorization` header is rejected 401
and the handler (which would write a payload) never runs. -/
theorem auth_required_rejects_witness :
    with_auth "k" 0 AuthHeader.missing
      { users := [], conversations := [], messages := [], api_usage := [] }
      (fun _ d => { status := 200, error := none, db := d }) =
      { status := 401, error := some "Authentication required",
        db := { users := [], conversations := [], messages := [],
                api_usage := [] } } :=
  ((auth_required_rejects "k" 0 AuthHeader.missing _ _).1 (Or.inl rfl)).2

/-- C7: `GET /api/conversations` returns only conversations owned by
the requesting user, only active ones, at most 50, ordered newest
`updated_at` first. -/
theorem get_conversations_spec (u : User) (db : DB) :
    (∀ c ∈ get_conversations u db, c.user_id = u.id ∧ c.is_active = true) ∧
    (get_conversations u db).length ≤ 50 ∧
    List.Pairwise (fun a b => b.updated_at ≤ a.updated_at)
      (get_conversations u db) := by
  refine ⟨?_, ?_, ?_⟩
  · intro c hc
    unfold get_conversations at hc
    have h1 := (List.take_sublist 50 _).subset hc
    have h2 := List.mem_mergeSort.mp h1
    have h3 := List.of_mem_filter h2
    simpa using h3
  · unfold get_conversations
    simp [List.length_take]
  · unfold get_conversations
    have hs := @List.sorted_mergeSort Conversation
      (fun a b => decide (b.updated_at ≤ a.updated_at))
      (fun a b c hab hbc => by
        simp only [decide_eq_true_eq] at hab hbc ⊢
        omega)
      (fun a b => by
        simp only [Bool.or_eq_true, decide_eq_true_eq]
        omega)
      (db.conversations.filter (fun c => c.user_id = u.id ∧ c.is_active))
    have hs2 : List.Pairwise (fun a b : Conversation => b.updated_at ≤ a.updated_at)
        ((db.conversations.filter
          (fun c => c.user_id = u.id ∧ c.is_active)).mergeSort
          (fun a b => decide (b.updated_at ≤ a.updated_at))) :=
      hs.imp (fun h => by simpa using h)
    exact hs2.sublist (List.take_sublist 50 _)

/-- Witness: on a one-conversation store the returned entry is owned by
the requester and active, and the listing respects the cap. -/
theorem get_conversations_spec_witness :
    (sampleConv.user_id = sampleUser.id ∧ sampleConv.is_active = true) ∧
    (get_conversations sampleUser sampleDB).length ≤ 50 := by
  refine ⟨?_, ?_⟩
  · exact (get_conversations_spec sampleUser sampleDB).1 sampleConv
      (by simp [get_conversations, sampleDB, sampleConv, sampleUser])
  · exact (get_conversations_spec sampleUser sampleDB).2.1

/-- C9: an authenticated chat request with a non-empty message list
ending in a `user` turn and a non-empty model value outside the three
provider identifiers is answered 400, yet only after a new conversation
has been created (no `conversation_id` supplied) and the user message
has been committed: the invalid-model branch is not state-preserving. -/
theorem chat_invalid_model_mutates_state (u : User) (m : String)
    (msgs : List ChatMsg) (call : ProviderCall) (fr : Fresh) (t0 t1 : Nat)
    (db : DB)
    (hm0 : m ≠ "") (hm1 : m ≠ "openai") (hm2 : m ≠ "gemini")
    (hm3 : m ≠ "claude") (hmsgs : msgs ≠ [])
    (hlast : (msgs.getLast hmsgs).role = "user") :
    chat u { model := some m, messages := msgs, conversation_id := none }
        call fr t0 t1 db =
      { status := 400, error := some ("Invalid model selected: " ++ m),
        db := { db with
          conversations := db.conversations ++
            [{ id := fr.convId, user_id := u.id,
               title := some ((msgs.head hmsgs).content.take 50 ++ "..."),
               created_at := t0, updated_at := t0, is_active := true }],
          messages := db.messages ++
            [{ id := fr.userMsgId, conversation_id := fr.convId,
               role := "user", content := (msgs.getLast hmsgs).content,
               model_used := none, timestamp := t0, token_count := none,
               response_time := none }] } } := by
  obtain ⟨a, rest, rfl⟩ : ∃ a rest, msgs = a :: rest := by
    cases msgs with
    | nil => exact absurd rfl hmsgs
    | cons a rest => exact ⟨a, rest, rfl⟩
  unfold chat chat_with_conversation save_user_message dispatch_model
  rw [List.getLast?_eq_getLast (a :: rest) (List.cons_ne_nil a rest)]
  simp [hm0, hm1, hm2, hm3, hlast]

/-- Witness: a concrete request with model `unknown` returns 400 with
the new conversation and the user message committed. -/
theorem chat_invalid_model_mutates_state_witness :
    chat sampleUser
        { model := some "unknown",
          messages := [{ role := "user", content := "hi" }],
          conversation_id := none }
        sampleCallOk sampleFresh 1 2 emptyDB =
      { status := 400, error := some "Invalid model selected: unknown",
        db := { emptyDB with
          conversations :=
            [{ id := "c-new", user_id := "u1", title := some "hi...",
               created_at := 1, updated_at := 1, is_active := true }],
          messages :=
            [{ id := "m-user", conversation_id := "c-new", role := "user",
               content := "hi", model_used := none, timestamp := 1,
               token_count := none, response_time := none }] } } := by
  have h := chat_invalid_model_mutates_state sampleUser "unknown"
    [{ role := "user", content := "hi" }] sampleCallOk sampleFresh 1 2
    emptyDB (by decide) (by decide) (by decide) (by decide)
    (by decide) (by decide)
  simpa [emptyDB, sampleUser, sampleFresh] using h

/-- C4: an authenticated chat request with a valid model, a non-empty
message list ending in a `user` turn and no `conversation_id`, on a
successful provider call, creates exactly one new `Conversation` titled
with the first 50 characters of the first message plus an ellipsis
marker, persists exactly two `Message` rows in it (`user` then
`assistant`, the latter carrying the model label, token count and
latency), and sets the `updated_at` of the conversation to the later clock
`t1 ≥ t0`. -/
theorem chat_success_creates_conversation_and_two_messages (u : User)
    (m text : String) (tokens : Option Nat) (msgs : List ChatMsg)
    (call : ProviderCall) (fr : Fresh) (t0 t1 : Nat) (db : DB)
    (hm : m = "openai" ∨ m = "gemini" ∨ m = "claude")
    (hmsgs : msgs ≠ [])
    (hlast : (msgs.getLast hmsgs).role = "user")
    (hout : call.outcome = .ok (text, tokens))
    (hfresh : ∀ c ∈ db.conversations, c.id ≠ fr.convId)
    (ht : t0 ≤ t1) :
    chat u { model := some m, messages := msgs, conversation_id := none }
        call fr t0 t1 db =
      { status := 200, error := none,
        db := { db with
          conversations := db.conversations ++
            [{ id := fr.convId, user_id := u.id,
               title := some ((msgs.head hmsgs).content.take 50 ++ "..."),
               created_at := t0, updated_at := t1, is_active := true }],
          messages := db.messages ++
            [{ id := fr.userMsgId, conversation_id := fr.convId,
               role := "user", content := (msgs.getLast hmsgs).content,
               model_used := none, timestamp := t0, token_count := none,
               response_time := none },
             { id := fr.aiMsgId, conversation_id := fr.convId,
               role := "assistant", content := text,
               model_used := some (provider_label m), timestamp := t1,
               token_count := provider_tokens m tokens,
               response_time := some call.elapsed }],
          api_usage := db.api_usage ++
            [{ id := fr.usageId, user_id := u.id,
               model_name := provider_label m,
               endpoint := provider_endpoint m,
               tokens_used := provider_tokens m tokens,
               cost_estimate := none, response_time := call.elapsed,
               status_code := 200, timestamp := t1 }] } } ∧
    t0 ≤ t1 := by
  refine ⟨?_, ht⟩
  obtain ⟨a, rest, rfl⟩ : ∃ a rest, msgs = a :: rest := by
    cases msgs with
    | nil => exact absurd rfl hmsgs
    | cons a rest => exact ⟨a, rest, rfl⟩
  have hmap : ∀ c ∈ db.conversations,
      (if c.id = fr.convId then { c with updated_at := t1 } else c) = c := by
    intro c hc
    rw [if_neg (hfresh c hc)]
  rcases hm with rfl | rfl | rfl <;>
  · unfold chat chat_with_conversation save_user_message dispatch_model AIService.call_openai
      AIService.call_gemini AIService.call_claude AIService.record_usage
      provider_label provider_endpoint provider_tokens
    rw [List.getLast?_eq_getLast (a :: rest) (List.cons_ne_nil a rest)]
    simp [hout, hlast, List.map_congr_left hmap]

/-- Witness: a concrete successful openai request against an empty
store. -/
theorem chat_success_witness :
    chat sampleUser sampleReq sampleCallOk sampleFresh 1 2 emptyDB =
      { status := 200, error := none,
        db := { emptyDB with
          conversations :=
            [{ id := "c-new", user_id := "u1", title := some "hi...",
               created_at := 1, updated_at := 2, is_active := true }],
          messages :=
            [{ id := "m-user", conversation_id := "c-new", role := "user",
               content := "hi", model_used := none, timestamp := 1,
               token_count := none, response_time := none },
             { id := "m-ai", conversation_id := "c-new", role := "assistant",
               content := "hello", model_used := some "openai-gpt-4o",
               timestamp := 2, token_count := some 15,
               response_time := some 2 }],
          api_usage :=
            [{ id := "usage-1", user_id := "u1",
               model_name := "openai-gpt-4o",
               endpoint := "/chat/completions", tokens_used := some 15,
               cost_estimate := none, response_time := 2,
               status_code := 200, timestamp := 2 }] } } := by
  have h := chat_success_creates_conversation_and_two_messages sampleUser
    "openai" "hello" (some 15) [{ role := "user", content := "hi" }]
    sampleCallOk sampleFresh 1 2 emptyDB (Or.inl rfl) (by decide)
    (by decide) (by decide) (by decide) (by decide)
  simpa [emptyDB, sampleUser, sampleFresh, sampleReq, sampleCallOk,
    provider_label, provider_endpoint, provider_tokens] using h.1

/-- C5: when the provider call fails, the chat endpoint responds 500,
the inbound `user` message is committed but no `assistant` message is,
and exactly one `APIUsage` row is appended with failure status 500;
moreover every provider call attempt, successful or failed, appends
exactly one `APIUsage` row. -/
theorem chat_provider_failure (u : User) (m : String) (msgs : List ChatMsg)
    (cid : Option String) (call : ProviderCall) (fr : Fresh) (t0 t1 : Nat)
    (db : DB) (e : String)
    (hm : m = "openai" ∨ m = "gemini" ∨ m = "claude")
    (hmsgs : msgs ≠ [])
    (hlast : (msgs.getLast hmsgs).role = "user")
    (hout : call.outcome = .error e)
    (hconv : cid.getD "" = "" ∨
      ∃ c0, db.conversations.find? (conv_match (cid.getD "") u.id)
        = some c0) :
    (∃ convId,
      (chat u { model := some m, messages := msgs, conversation_id := cid }
          call fr t0 t1 db).status = 500 ∧
      (chat u { model := some m, messages := msgs, conversation_id := cid }
          call fr t0 t1 db).db.messages = db.messages ++
        [{ id := fr.userMsgId, conversation_id := convId, role := "user",
           content := (msgs.getLast hmsgs).content, model_used := none,
           timestamp := t0, token_count := none, response_time := none }] ∧
      (chat u { model := some m, messages := msgs, conversation_id := cid }
          call fr t0 t1 db).db.api_usage = db.api_usage ++
        [{ id := fr.usageId, user_id := u.id,
           model_name := provider_label m, endpoint := provider_endpoint m,
           tokens_used := none, cost_estimate := none,
           response_time := call.elapsed, status_code := 500,
           timestamp := t1 }]) ∧
    (∀ (msgs' : List ChatMsg) (call' : ProviderCall) (uid usage_id : String)
        (db' : DB) (t : Nat),
      (∃ r1, (AIService.call_openai msgs' call' uid db' usage_id t).2.api_usage
        = db'.api_usage ++ [r1]) ∧
      (∃ r2, (AIService.call_gemini msgs' call' uid db' usage_id t).2.api_usage
        = db'.api_usage ++ [r2]) ∧
      (∃ r3, (AIService.call_claude msgs' call' uid db' usage_id t).2.api_usage
        = db'.api_usage ++ [r3])) := by
  constructor
  · obtain ⟨a, rest, rfl⟩ : ∃ a rest, msgs = a :: rest := by
      cases msgs with
      | nil => exact absurd rfl hmsgs
      | cons a rest => exact ⟨a, rest, rfl⟩
    by_cases hcid : cid.getD "" = ""
    · refine ⟨fr.convId, ?_⟩
      rcases hm with rfl | rfl | rfl <;>
      · unfold chat chat_with_conversation save_user_message dispatch_model AIService.call_openai
          AIService.call_gemini AIService.call_claude AIService.record_usage
          provider_label provider_endpoint
        rw [List.getLast?_eq_getLast (a :: rest) (List.cons_ne_nil a rest)]
        simp [hout, hlast, hcid]
    · rcases hconv with hcid' | ⟨c0, hc0⟩
      · exact absurd hcid' hcid
      · refine ⟨c0.id, ?_⟩
        rcases hm with rfl | rfl | rfl <;>
        · unfold chat chat_with_conversation save_user_message dispatch_model AIService.call_openai
            AIService.call_gemini AIService.call_claude AIService.record_usage
            provider_label provider_endpoint
          rw [List.getLast?_eq_getLast (a :: rest) (List.cons_ne_nil a rest)]
          simp [hout, hlast, hcid, hc0]
  · intro msgs' call' uid usage_id db' t
    refine ⟨?_, ?_, ?_⟩
    · cases h : call'.outcome with
      | ok v =>
        exact ⟨{ id := usage_id, user_id := uid,
                 model_name := "openai-gpt-4o",
                 endpoint := "/chat/completions", tokens_used := v.2,
                 cost_estimate := none, response_time := call'.elapsed,
                 status_code := 200, timestamp := t },
          by simp [AIService.call_openai, AIService.record_usage, h]⟩
      | error e' =>
        exact ⟨{ id := usage_id, user_id := uid,
                 model_name := "openai-gpt-4o",
                 endpoint := "/chat/completions", tokens_used := none,
                 cost_estimate := none, response_time := call'.elapsed,
                 status_code := 500, timestamp := t },
          by simp [AIService.call_openai, AIService.record_usage, h]⟩
    · cases h : call'.outcome with
      | ok v =>
        exact ⟨{ id := usage_id, user_id := uid,
                 model_name := "gemini-2.5-flash", endpoint := "/generate",
                 tokens_used := none, cost_estimate := none,
                 response_time := call'.elapsed, status_code := 200,
                 timestamp := t },
          by simp [AIService.call_gemini, AIService.record_usage, h]⟩
      | error e' =>
        exact ⟨{ id := usage_id, user_id := uid,
                 model_name := "gemini-2.5-flash", endpoint := "/generate",
                 tokens_used := none, cost_estimate := none,
                 response_time := call'.elapsed, status_code := 500,
                 timestamp := t },
          by simp [AIService.call_gemini, AIService.record_usage, h]⟩
    · cases h : call'.outcome with
      | ok v =>
        exact ⟨{ id := usage_id, user_id := uid,
                 model_name := "claude-3-5-sonnet", endpoint := "/messages",
                 tokens_used := v.2, cost_estimate := none,
                 response_time := call'.elapsed, status_code := 200,
                 timestamp := t },
          by simp [AIService.call_claude, AIService.record_usage, h]⟩
      | error e' =>
        exact ⟨{ id := usage_id, user_id := uid,
                 model_name := "claude-3-5-sonnet", endpoint := "/messages",
                 tokens_used := none, cost_estimate := none,
                 response_time := call'.elapsed, status_code := 500,
                 timestamp := t },
          by simp [AIService.call_claude, AIService.record_usage, h]⟩

/-- Witness: a concrete failed openai call yields 500 and one failure
usage row. -/
theorem chat_provider_failure_witness :
    (chat sampleUser sampleReq sampleCallErr sampleFresh 1 2
      emptyDB).status = 500 := by
  obtain ⟨⟨cid', h1, _, _⟩, _⟩ := chat_provider_failure sampleUser "openai"
    [{ role := "user", content := "hi" }] none sampleCallErr sampleFresh 1 2
    emptyDB "boom" (Or.inl rfl) (by decide) (by decide) (by decide)
    (Or.inl (by decide))
  exact h1

/-- C6 (counterexample): a chat request with model `unknown` and no
`Authorization` header is rejected 401 by the authentication
middleware, not 400: the 400 invalid-model rejection does not hold
regardless of authentication state. -/
theorem chat_unknown_model_unauthenticated_401 :
    (chatRoute "k" 0 AuthHeader.missing
      { model := some "unknown",
        messages := [{ role := "user", content := "hi" }],
        conversation_id := none }
      sampleCallOk sampleFresh 1 emptyDB).status = 401 ∧
    ¬ (chatRoute "k" 0 AuthHeader.missing
      { model := some "unknown",
        messages := [{ role := "user", content := "hi" }],
        conversation_id := none }
      sampleCallOk sampleFresh 1 emptyDB).status = 400 := by
  constructor <;> decide

/-- C6 (amended): for a request that reaches the handler
(authenticated), an absent model or empty message list is answered 400
with an error message; a non-empty model outside the three provider
identifiers is answered 400 with no provider dispatch attempted (no
usage row is written), provided any supplied `conversation_id`
resolves; an unauthenticated request is rejected 401 by the
middleware before model validation runs. -/
theorem chat_model_validation (u : User) (req : ChatRequest)
    (call : ProviderCall) (fr : Fresh) (t0 t1 : Nat) (db : DB) :
    ((req.model.getD "" = "" ∨ req.messages = []) →
      chat u req call fr t0 t1 db =
        { status := 400, error := some "Model and messages are required",
          db := db }) ∧
    (∀ m msgs cid, m ≠ "" → m ≠ "openai" → m ≠ "gemini" → m ≠ "claude" →
      (cid.getD "" = "" ∨
        ∃ c0, db.conversations.find? (conv_match (cid.getD "") u.id)
          = some c0) →
      (chat u { model := some m, messages := msgs, conversation_id := cid }
          call fr t0 t1 db).status = 400 ∧
      (chat u { model := some m, messages := msgs, conversation_id := cid }
          call fr t0 t1 db).db.api_usage = db.api_usage) ∧
    (∀ secret_key now,
      (chatRoute secret_key now AuthHeader.missing req call fr t1
        db).status = 401) := by
  refine ⟨?_, ?_, ?_⟩
  · intro h
    unfold chat
    rw [if_pos h]
  · intro m msgs cid hm0 hm1 hm2 hm3 hconv
    by_cases hempty : msgs = []
    · subst hempty
      constructor <;> simp [chat]
    · obtain ⟨a, rest, rfl⟩ : ∃ a rest, msgs = a :: rest := by
        cases msgs with
        | nil => exact absurd rfl hempty
        | cons a rest => exact ⟨a, rest, rfl⟩
      by_cases hcid : cid.getD "" = ""
      · by_cases hrole :
          ((a :: rest).getLast (List.cons_ne_nil a rest)).role = "user"
        all_goals
          constructor <;>
          · unfold chat chat_with_conversation save_user_message dispatch_model
            rw [List.getLast?_eq_getLast (a :: rest)
              (List.cons_ne_nil a rest)]
            simp [hm0, hm1, hm2, hm3, hcid, hrole]
      · rcases hconv with hcid' | ⟨c0, hc0⟩
        · exact absurd hcid' hcid
        · by_cases hrole :
            ((a :: rest).getLast (List.cons_ne_nil a rest)).role = "user"
          all_goals
            constructor <;>
            · unfold chat chat_with_conversation save_user_message dispatch_model
              rw [List.getLast?_eq_getLast (a :: rest)
                (List.cons_ne_nil a rest)]
              simp [hm0, hm1, hm2, hm3, hcid, hc0, hrole]
  · intro secret_key now
    rfl

/-- Witness: an authenticated request with an absent model is answered
400 leaving the store unchanged. -/
theorem chat_model_validation_witness :
    chat sampleUser
      { model := none, messages := [{ role := "user", content := "hi" }],
        conversation_id := none }
      sampleCallOk sampleFresh 1 2 emptyDB =
      { status := 400, error := some "Model and messages are required",
        db := emptyDB } :=
  (chat_model_validation sampleUser
    { model := none, messages := [{ role := "user", content := "hi" }],
      conversation_id := none }
    sampleCallOk sampleFresh 1 2 emptyDB).1 (Or.inl rfl)

/-- Helper: `save_user_message` appends either nothing or exactly one
`user` row timestamped `t0`. -/
theorem save_user_message_shape (req : ChatRequest) (cidv mid : String)
    (t0 : Nat) (db : DB) :
    ∃ new0, (save_user_message req cidv mid t0 db).messages =
        db.messages ++ new0 ∧
      (∀ x ∈ new0, (x.role = "user" ∧ x.model_used = none) ∧
        x.timestamp = t0) ∧
      List.Pairwise (fun a b : Message => a.timestamp ≤ b.timestamp) new0 := by
  unfold save_user_message
  cases hl : req.messages.getLast? with
  | none => exact ⟨[], by simp, by simp, by simp⟩
  | some last =>
    by_cases hrole : last.role = "user"
    · refine ⟨[{ id := mid, conversation_id := cidv, role := "user",
                 content := last.content, model_used := none,
                 timestamp := t0, token_count := none,
                 response_time := none }], ?_, ?_, ?_⟩
      · simp [hrole]
      · intro x hx
        simp only [List.mem_singleton] at hx
        subst hx
        exact ⟨⟨rfl, rfl⟩, rfl⟩
      · simp
    · exact ⟨[], by simp [hrole], by simp, by simp⟩

/-- Helper: a successful dispatch leaves the `messages` table unchanged
and any success dict carries one of the three fixed model labels. -/
theorem dispatch_model_inv (m : String) (msgs : List ChatMsg)
    (call : ProviderCall) (uid : String) (db : DB) (usage_id : String)
    (t : Nat) (r : AiResponse) (db' : DB)
    (h : dispatch_model m msgs call uid db usage_id t = some (r, db')) :
    db'.messages = db.messages ∧
    (∀ text label tokens rtime, r = .ok text label tokens rtime →
      label = "openai-gpt-4o" ∨ label = "gemini-2.5-flash" ∨
        label = "claude-3-5-sonnet") := by
  unfold dispatch_model at h
  by_cases h1 : m = "openai"
  · rw [if_pos h1] at h
    cases hc : call.outcome with
    | ok v =>
      simp [AIService.call_openai, AIService.record_usage, hc] at h
      obtain ⟨hr, hdb⟩ := h
      subst hdb
      refine ⟨rfl, ?_⟩
      intro text label tokens rtime hrr
      rw [← hr] at hrr
      cases hrr
      exact Or.inl rfl
    | error e =>
      simp [AIService.call_openai, AIService.record_usage, hc] at h
      obtain ⟨hr, hdb⟩ := h
      subst hdb
      refine ⟨rfl, ?_⟩
      intro text label tokens rtime hrr
      rw [← hr] at hrr
      cases hrr
  · rw [if_neg h1] at h
    by_cases h2 : m = "gemini"
    · rw [if_pos h2] at h
      cases hc : call.outcome with
      | ok v =>
        simp [AIService.call_gemini, AIService.record_usage, hc] at h
        obtain ⟨hr, hdb⟩ := h
        subst hdb
        refine ⟨rfl, ?_⟩
        intro text label tokens rtime hrr
        rw [← hr] at hrr
        cases hrr
        exact Or.inr (Or.inl rfl)
      | error e =>
        simp [AIService.call_gemini, AIService.record_usage, hc] at h
        obtain ⟨hr, hdb⟩ := h
        subst hdb
        refine ⟨rfl, ?_⟩
        intro text label tokens rtime hrr
        rw [← hr] at hrr
        cases hrr
    · rw [if_neg h2] at h
      by_cases h3 : m = "claude"
      · rw [if_pos h3] at h
        cases hc : call.outcome with
        | ok v =>
          simp [AIService.call_claude, AIService.record_usage, hc] at h
          obtain ⟨hr, hdb⟩ := h
          subst hdb
          refine ⟨rfl, ?_⟩
          intro text label tokens rtime hrr
          rw [← hr] at hrr
          cases hrr
          exact Or.inr (Or.inr rfl)
        | error e =>
          simp [AIService.call_claude, AIService.record_usage, hc] at h
          obtain ⟨hr, hdb⟩ := h
          subst hdb
          refine ⟨rfl, ?_⟩
          intro text label tokens rtime hrr
          rw [← hr] at hrr
          cases hrr
      · rw [if_neg h3] at h
        cases h

/-- Helper: the post-resolution chat body appends only well-formed
rows, in nondecreasing timestamp order, at the end of the table. -/
theorem chat_with_conversation_messages (u : User) (req : ChatRequest)
    (call : ProviderCall) (fr : Fresh) (t0 t1 : Nat)
    (conversation : Conversation) (db1 : DB) (ht : t0 ≤ t1) :
    ∃ new,
      (chat_with_conversation u req call fr t0 t1 conversation
        db1).db.messages = db1.messages ++ new ∧
      (∀ x ∈ new, MessageWF x ∧ (x.timestamp = t0 ∨ x.timestamp = t1)) ∧
      List.Pairwise (fun a b : Message => a.timestamp ≤ b.timestamp) new := by
  unfold chat_with_conversation
  dsimp only
  obtain ⟨new0, hs, hwf0, hpw0⟩ :=
    save_user_message_shape req conversation.id fr.userMsgId t0 db1
  cases hd : dispatch_model (req.model.getD "") req.messages call u.id
      (save_user_message req conversation.id fr.userMsgId t0 db1)
      fr.usageId t1 with
  | none =>
    dsimp only
    refine ⟨new0, hs, ?_, hpw0⟩
    intro x hx
    obtain ⟨hwf, hts⟩ := hwf0 x hx
    exact ⟨Or.inl hwf, Or.inl hts⟩
  | some rd =>
    obtain ⟨r, db3⟩ := rd
    obtain ⟨hmsg3, hlabel⟩ :=
      dispatch_model_inv _ _ _ _ _ _ _ _ _ hd
    cases r with
    | err e =>
      dsimp only
      refine ⟨new0, ?_, ?_, hpw0⟩
      · rw [hmsg3, hs]
      · intro x hx
        obtain ⟨hwf, hts⟩ := hwf0 x hx
        exact ⟨Or.inl hwf, Or.inl hts⟩
    | ok text label tokens rtime =>
      dsimp only
      refine ⟨new0 ++ [{ id := fr.aiMsgId,
                         conversation_id := conversation.id,
                         role := "assistant", content := text,
                         model_used := some label, timestamp := t1,
                         token_count := tokens,
                         response_time := some rtime }], ?_, ?_, ?_⟩
      · rw [hmsg3, hs, List.append_assoc]
      · intro x hx
        rcases List.mem_append.mp hx with hx0 | hx1
        · obtain ⟨hwf, hts⟩ := hwf0 x hx0
          exact ⟨Or.inl hwf, Or.inl hts⟩
        · simp only [List.mem_singleton] at hx1
          subst hx1
          refine ⟨Or.inr ⟨rfl, label, rfl, ?_⟩, Or.inr rfl⟩
          exact hlabel text label tokens rtime rfl
      · rw [List.pairwise_append]
        refine ⟨hpw0, by simp, ?_⟩
        intro a ha b hb
        simp only [List.mem_singleton] at hb
        subst hb
        have hta := (hwf0 a ha).2
        dsimp only
        rw [hta]
        exact ht

/-- Helper: one `chat` request appends only well-formed rows, in
nondecreasing timestamp order, at the end of the `messages` table. -/
theorem chat_messages_shape (u : User) (req : ChatRequest)
    (call : ProviderCall) (fr : Fresh) (t0 t1 : Nat) (db : DB)
    (ht : t0 ≤ t1) :
    ∃ new, (chat u req call fr t0 t1 db).db.messages = db.messages ++ new ∧
      (∀ x ∈ new, MessageWF x ∧ (x.timestamp = t0 ∨ x.timestamp = t1)) ∧
      List.Pairwise (fun a b : Message => a.timestamp ≤ b.timestamp) new := by
  unfold chat
  by_cases hguard : req.model.getD "" = "" ∨ req.messages = []
  · rw [if_pos hguard]
    exact ⟨[], by simp, by simp, by simp⟩
  · rw [if_neg hguard]
    dsimp only
    by_cases hcid : req.conversation_id.getD "" ≠ ""
    · rw [if_pos hcid]
      cases hf : db.conversations.find?
          (conv_match (req.conversation_id.getD "") u.id) with
      | none => exact ⟨[], by simp, by simp, by simp⟩
      | some c =>
        dsimp only
        exact chat_with_conversation_messages u req call fr t0 t1 c db ht
    · rw [if_neg hcid]
      dsimp only
      exact chat_with_conversation_messages u req call fr t0 t1 _ _ ht

/-- Helper: every reachable database state satisfies the message-table
invariant. -/
theorem reachable_messages_inv (d : DB) (h : Reachable d) :
    MessagesInv d := by
  induction h with
  | init users =>
    exact ⟨fun m hm => absurd hm (List.not_mem_nil m), List.Pairwise.nil⟩
  | chatStep u req call fr t0 t1 db hr hts ht ih =>
    obtain ⟨new, hnew, hwf, hpw⟩ :=
      chat_messages_shape u req call fr t0 t1 db ht
    obtain ⟨ihwf, ihpw⟩ := ih
    constructor
    · rw [hnew]
      intro m hm
      rcases List.mem_append.mp hm with h0 | h1
      · exact ihwf m h0
      · exact (hwf m h1).1
    · rw [hnew]
      rw [List.pairwise_append]
      refine ⟨ihpw, hpw, ?_⟩
      intro a ha b hb
      rcases (hwf b hb).2 with h0 | h1
      · rw [h0]
        exact hts a ha
      · rw [h1]
        exact le_trans (hts a ha) ht

/-- C8: in every reachable state, the messages nested in
`GET /api/conversations/<id>` are in nondecreasing `timestamp` order,
every role is one of exactly `user` and `assistant`, and every
assistant message carries the model label of the provider that
produced it. -/
theorem conversation_messages_ordered_and_wf (d : DB) (u : User)
    (cid : String) (c : Conversation) (msgs : List Message)
    (hr : Reachable d)
    (hget : get_conversation u cid d = some (c, msgs)) :
    List.Pairwise (fun a b : Message => a.timestamp ≤ b.timestamp) msgs ∧
    ∀ m ∈ msgs, (m.role = "user" ∨ m.role = "assistant") ∧
      (m.role = "assistant" → ∃ l, m.model_used = some l ∧
        (l = "openai-gpt-4o" ∨ l = "gemini-2.5-flash" ∨
          l = "claude-3-5-sonnet")) := by
  obtain ⟨hwf, hpw⟩ := reachable_messages_inv d hr
  unfold get_conversation at hget
  cases hf : d.conversations.find? (conv_match cid u.id) with
  | none => rw [hf] at hget; cases hget
  | some c0 =>
    rw [hf] at hget
    dsimp only at hget
    injection hget with hpair
    have hc : c0 = c := congrArg Prod.fst hpair
    have hmsgs :
        d.messages.filter (fun m => m.conversation_id = c0.id) = msgs :=
      congrArg Prod.snd hpair
    subst hc
    rw [← hmsgs]
    constructor
    · exact hpw.sublist (List.filter_sublist _)
    · intro m hm
      have hmem : m ∈ d.messages := List.mem_of_mem_filter hm
      rcases hwf m hmem with ⟨h1, _⟩ | ⟨h1, l, h2, h3⟩
      · refine ⟨Or.inl h1, ?_⟩
        intro hass
        rw [h1] at hass
        exact absurd hass (by decide)
      · exact ⟨Or.inr h1, fun _ => ⟨l, h2, h3⟩⟩

/-- Witness: one concrete chat turn from the empty store, then reading
the conversation back: two messages, ordered, `user` then `assistant`
with its provenance label. -/
theorem conversation_messages_ordered_and_wf_witness :
    List.Pairwise (fun a b : Message => a.timestamp ≤ b.timestamp)
      [sampleUserMsg, sampleAiMsg] ∧
    ∀ m ∈ [sampleUserMsg, sampleAiMsg],
      (m.role = "user" ∨ m.role = "assistant") ∧
      (m.role = "assistant" → ∃ l, m.model_used = some l ∧
        (l = "openai-gpt-4o" ∨ l = "gemini-2.5-flash" ∨
          l = "claude-3-5-sonnet")) := by
  exact conversation_messages_ordered_and_wf
    (chat sampleUser sampleReq sampleCallOk sampleFresh 1 2 emptyDB).db
    sampleUser "c-new" sampleConvNew [sampleUserMsg, sampleAiMsg]
    (Reachable.chatStep sampleUser sampleReq sampleCallOk sampleFresh 1 2
      emptyDB (Reachable.init [sampleUser])
      (fun m hm => absurd hm (List.not_mem_nil m)) (by decide))
    (by decide)

end MultiGenQA
